import Mathlib

/-!
Verification development for the P2P server connection manager
(`src/server.rs`).  The shared mutable state of the `P2P` struct is
embedded as a pure record `P2PState`; each operation of the connection
manager is embedded as a pure function on that record.  External I/O
(TCP connects, key generation, encrypt/decrypt, socket writes) is made
explicit through small environment types that enumerate the outcome of
each fallible step, exactly mirroring the early-return structure of the
Rust code.  `HashMap` is embedded as an association list, `VecDeque` as
a list, `Instant` as a natural-number timestamp in seconds, RSA keys and
socket handles as opaque numeric identifiers.
-/

/-- Association-list lookup, mirroring `HashMap::get`. -/
def alookup {α : Type} (t : List (String × α)) (k : String) : Option α :=
  match t with
  | [] => none
  | (k', v) :: rest => if k' = k then some v else alookup rest k

/-- Association-list removal, mirroring `HashMap::remove`. -/
def aremove {α : Type} (t : List (String × α)) (k : String) : List (String × α) :=
  match t with
  | [] => []
  | (k', v) :: rest => if k' = k then aremove rest k else (k', v) :: aremove rest k

/-- Association-list insertion, mirroring `HashMap::insert` (replaces any
previous binding of the key). -/
def ainsert {α : Type} (t : List (String × α)) (k : String) (v : α) : List (String × α) :=
  (k, v) :: aremove t k

/-- The shared state of the `P2P` struct (src/server.rs lines 179-199):
the five parallel per-slot arrays, the per-address inbound queues, the
debounce table, the blacklist and the basic configuration.  Keys and
socket handles are opaque `Nat` identifiers; message payloads are byte
lists. -/
structure P2PState where
  running : Bool
  port : Nat
  host : String
  maxClients : Nat
  clientsIp : List String
  incomingRequests : List (String × List (List Nat))
  clientSockets : List (Option Nat)
  socketBusy : List Bool
  keys : List (Option Nat)
  myKeys : List (Option Nat)
  blacklist : List String
  connectionAttempts : List (String × Nat)
deriving Repr, DecidableEq

/-- The debounce window: `Duration::from_secs(5)`. -/
def debounceSecs : Nat := 5

/-- The duplicate-attempt check shared verbatim by `handle_incoming`
(src/server.rs lines 547-556) and `create_session` (lines 753-762):
if a prior entry exists and its elapsed time is strictly below 5
seconds, reject leaving the table unchanged; otherwise record `now`.
Returns (admitted, resulting table). -/
def debounceCheck (attempts : List (String × Nat)) (addr : String) (now : Nat) :
    Bool × List (String × Nat) :=
  match alookup attempts addr with
  | some last =>
      if now - last < debounceSecs then (false, attempts)
      else (true, ainsert attempts addr now)
  | none => (true, ainsert attempts addr now)

/-- Outcome of each fallible step of the inbound handshake in
`handle_incoming` (src/server.rs lines 560-607): key-read error, empty
key, unparsable key, private-key generation error, public-key
serialization error, key-send error, or success carrying the peer's
public key, the fresh local private key and the socket handle. -/
inductive InEnv where
  | keyReadErr
  | emptyKey
  | badKey
  | keyGenErr
  | serErr
  | sendErr
  | ok (clientKey : Nat) (privKey : Nat) (sock : Nat)
deriving Repr, DecidableEq

/-- Outcome of the pre-read-loop part of `handle_incoming`. -/
inductive InOutcome where
  | debounced
  | failed
  | noFreeSlot
  | connected (idx : Nat)
deriving Repr, DecidableEq

/-- The free-slot scan of `handle_incoming` (src/server.rs lines
614-620): first index `i < max_clients` with `clients_ip[i].is_empty()`
and `!socket_busy[i]`. -/
def findFreeSlot (ips : List String) (busy : List Bool) (n : Nat) : Option Nat :=
  (List.range n).find? (fun i => (ips.getD i "").isEmpty && !(busy.getD i false))

/-- The setup phase of `handle_incoming` (src/server.rs lines 544-652):
debounce check and record, the handshake steps (each failure is an early
return that leaves the recorded debounce entry in place), the free-slot
claim, the storing of socket and keys, and — only after a successful
claim — the removal of the debounce entry. -/
def handle_incoming (st : P2PState) (addrStr : String) (now : Nat) (env : InEnv) :
    InOutcome × P2PState :=
  let dc := debounceCheck st.connectionAttempts addrStr now
  if dc.1 then
    let st1 := { st with connectionAttempts := dc.2 }
    match env with
    | .ok clientKey privKey sock =>
      match findFreeSlot st1.clientsIp st1.socketBusy st1.maxClients with
      | none => (.noFreeSlot, st1)
      | some idx =>
        (.connected idx,
         { st1 with
           clientsIp := st1.clientsIp.set idx addrStr,
           socketBusy := st1.socketBusy.set idx true,
           clientSockets := st1.clientSockets.set idx (some sock),
           keys := st1.keys.set idx (some clientKey),
           myKeys := st1.myKeys.set idx (some privKey),
           connectionAttempts := aremove st1.connectionAttempts addrStr })
    | _ => (.failed, st1)
  else (.debounced, st)

/-- `close_connection_internal` (src/server.rs lines 986-1035): clear
the socket handle, the address, the busy flag and both keys at the slot
index, and remove the inbound queue for the address.  This is the exit
path of the inbound read worker (line 696). -/
def close_connection_internal (st : P2PState) (address : String) (idx : Nat) : P2PState :=
  { st with
    clientSockets := st.clientSockets.set idx none,
    clientsIp := st.clientsIp.set idx "",
    socketBusy := st.socketBusy.set idx false,
    keys := st.keys.set idx none,
    myKeys := st.myKeys.set idx none,
    incomingRequests := aremove st.incomingRequests address }

/-- The exit path of the outbound read worker `listen_to_server`
(src/server.rs lines 945-955): it clears only the busy flag and the
address string; the socket handle, both keys and the inbound queue are
left untouched. -/
def listen_to_server_exit (st : P2PState) (idx : Nat) (_address : String) : P2PState :=
  { st with
    socketBusy := st.socketBusy.set idx false,
    clientsIp := st.clientsIp.set idx "" }

/-- Modelled from the spec, section 4.7: the full slot release — socket
handle cleared, address cleared, busy cleared, both keys cleared, and
the inbound queue for the address removed. -/
def fullSlotRelease (st : P2PState) (address : String) (idx : Nat) : Prop :=
  st.clientSockets.getD idx none = none ∧
  st.clientsIp.getD idx "" = "" ∧
  st.socketBusy.getD idx false = false ∧
  st.keys.getD idx none = none ∧
  st.myKeys.getD idx none = none ∧
  alookup st.incomingRequests address = none

instance (st : P2PState) (address : String) (idx : Nat) :
    Decidable (fullSlotRelease st address idx) := by
  unfold fullSlotRelease; infer_instance

/-- `check_address` (src/server.rs lines 1148-1151): whether some slot
currently holds this address. -/
def check_address (st : P2PState) (address : String) : Bool :=
  st.clientsIp.contains address

/-- `get_ind_by_address` (src/server.rs lines 1120-1128): linear scan of
the address array over indices `0..max_clients` for the first slot whose
address equals the argument. -/
def get_ind_by_address (st : P2PState) (address : String) : Option Nat :=
  (List.range st.maxClients).find? (fun i => st.clientsIp.getD i "" == address)

/-- Outcome of the fallible steps of `send` after the slot lookup
(src/server.rs lines 1051-1080): encryption error, successful write, or
failed write. -/
inductive SendEnv where
  | encryptErr
  | writeOk
  | writeErr
deriving Repr, DecidableEq

/-- `send` (src/server.rs lines 1037-1089): look up the slot by address,
require a public key, encrypt, require a socket, write.  The returned
list holds the log entries emitted by this call; note the write-failure
path falls through to the final `false` at line 1088 without logging. -/
def send (st : P2PState) (address : String) (_message : String) (env : SendEnv) :
    Bool × List String :=
  match get_ind_by_address st address with
  | none => (false, ["Cannot send to " ++ address ++ ": not connected"])
  | some idx =>
    match st.keys.getD idx none with
    | none => (false, ["Cannot send to " ++ address ++ ": no key"])
    | some _key =>
      match env with
      | .encryptErr => (false, ["Encryption error for " ++ address])
      | .writeOk =>
        match st.clientSockets.getD idx none with
        | none => (false, ["No socket for " ++ address])
        | some _sock => (true, ["Send message to " ++ address])
      | .writeErr =>
        match st.clientSockets.getD idx none with
        | none => (false, ["No socket for " ++ address])
        | some _sock => (false, [])

/-- Outcome of each fallible step of `connect_to_server`
(src/server.rs lines 789-892): TCP connect error, key-generation error,
serialization error, key-send error, key-read error, empty key,
unparsable key, or success carrying the server's public key, the fresh
local private key and the socket handle. -/
inductive OutEnv where
  | connectErr
  | keyGenErr
  | serErr
  | sendErr
  | readErr
  | emptyKey
  | badKey
  | ok (serverKey : Nat) (privKey : Nat) (sock : Nat)
deriving Repr, DecidableEq

/-- Whether an outbound environment describes a failing step. -/
def OutEnv.isFailure : OutEnv → Bool
  | .ok _ _ _ => false
  | _ => true

/-- `reload_socket` (src/server.rs lines 958-967): clear the socket
handle and the busy flag at the index. -/
def reload_socket (st : P2PState) (idx : Nat) : P2PState :=
  { st with
    clientSockets := st.clientSockets.set idx none,
    socketBusy := st.socketBusy.set idx false }

/-- `connect_to_server` (src/server.rs lines 789-892): on TCP connect
error, `reload_socket` on the candidate index and return false; on any
handshake-step failure, an early return false that touches no slot
array; on success, write all five slot fields at the index and return
true. -/
def connect_to_server (st : P2PState) (address : String) (_port : Nat) (idx : Nat)
    (env : OutEnv) : Bool × P2PState :=
  match env with
  | .connectErr => (false, reload_socket st idx)
  | .keyGenErr | .serErr | .sendErr | .readErr | .emptyKey | .badKey => (false, st)
  | .ok serverKey privKey sock =>
    (true, { st with
      clientsIp := st.clientsIp.set idx address,
      socketBusy := st.socketBusy.set idx true,
      clientSockets := st.clientSockets.set idx (some sock),
      keys := st.keys.set idx (some serverKey),
      myKeys := st.myKeys.set idx (some privKey) })

/-- The free-slot scan of `create_session` (src/server.rs lines
764-778): first index `i < max_clients` with `!socket_busy[i]` (the
address array is not consulted here). -/
def find_nonbusy_slot (busy : List Bool) (n : Nat) : Option Nat :=
  (List.range n).find? (fun i => !(busy.getD i false))

/-- `create_session` (src/server.rs lines 730-787): target port
defaults to this node's own port; reject self-connect; return true if
already connected; reject blacklisted targets; debounce; scan for the
first non-busy slot and call `connect_to_server` on it, removing the
debounce entry afterwards; if no slot is free, remove the debounce entry
and return false. -/
def create_session (st : P2PState) (address : String) (port : Option Nat) (now : Nat)
    (env : OutEnv) : Bool × P2PState :=
  let targetPort := port.getD st.port
  if address = st.host ∧ targetPort = st.port then (false, st)
  else if check_address st address then (true, st)
  else if st.blacklist.contains address then (false, st)
  else
    let dc := debounceCheck st.connectionAttempts address now
    if dc.1 then
      let st1 := { st with connectionAttempts := dc.2 }
      match find_nonbusy_slot st1.socketBusy st1.maxClients with
      | some i =>
        let r := connect_to_server st1 address targetPort i env
        (r.1, { r.2 with connectionAttempts := aremove r.2.connectionAttempts address })
      | none => (false, { st1 with connectionAttempts := aremove st1.connectionAttempts address })
    else (false, st)

/-- The enqueue performed by both read workers on a successful decrypt
(src/server.rs lines 669-673 and 919-923):
`entry(addr).or_insert_with(VecDeque::new).push_back(decrypted)`. -/
def enqueue_request (reqs : List (String × List (List Nat))) (addr : String)
    (msg : List Nat) : List (String × List (List Nat)) :=
  match alookup reqs addr with
  | some q => ainsert reqs addr (q ++ [msg])
  | none => ainsert reqs addr [msg]

/-- Three messages enqueued in order by a read worker for one address. -/
def enqueue3 (st : P2PState) (addr : String) (m1 m2 m3 : List Nat) : P2PState :=
  { st with incomingRequests :=
      enqueue_request (enqueue_request
        (enqueue_request st.incomingRequests addr m1) addr m2) addr m3 }

/-- `get_request` (src/server.rs lines 1130-1137): pop the front of the
address's queue, or `None` when the queue is absent or empty. -/
def get_request (st : P2PState) (address : String) : Option (List Nat) × P2PState :=
  match alookup st.incomingRequests address with
  | some (m :: rest) =>
      (some m, { st with incomingRequests := ainsert st.incomingRequests address rest })
  | some [] => (none, st)
  | none => (none, st)

/-- `get_connected_clients` (src/server.rs lines 1184-1190): the
non-empty addresses, in slot-index order. -/
def get_connected_clients (st : P2PState) : List String :=
  st.clientsIp.filter (fun ip => !ip.isEmpty)

/-- `connected_clients_count` (src/server.rs lines 1192-1195): count of
non-empty addresses. -/
def connected_clients_count (st : P2PState) : Nat :=
  st.clientsIp.countP (fun ip => !ip.isEmpty)

/-- The precondition under which `send` can reach its write step: the
address is found by the slot scan and that slot holds both a public key
and a socket handle. -/
def sendReady (st : P2PState) (address : String) : Prop :=
  ∃ idx, get_ind_by_address st address = some idx ∧
    st.keys.getD idx none ≠ none ∧ st.clientSockets.getD idx none ≠ none

/-- A pool state with one fully populated slot for peer "a", as left by
a completed handshake, with one queued inbound message. -/
def stC1 : P2PState :=
  { running := true, port := 1, host := "h", maxClients := 1,
    clientsIp := ["a"], incomingRequests := [("a", [[1]])],
    clientSockets := [some 3], socketBusy := [true],
    keys := [some 7], myKeys := [some 8],
    blacklist := [], connectionAttempts := [] }

/-- A fresh single-slot pool state with an empty debounce table. -/
def stC2 : P2PState :=
  { running := true, port := 1, host := "h", maxClients := 1,
    clientsIp := [""], incomingRequests := [],
    clientSockets := [none], socketBusy := [false],
    keys := [none], myKeys := [none],
    blacklist := [], connectionAttempts := [] }

/-- A single-slot pool state whose slot is non-busy but still holds a
stale socket handle and keys, as left by the outbound read worker's
exit path. -/
def stC3 : P2PState :=
  { running := true, port := 1, host := "h", maxClients := 1,
    clientsIp := [""], incomingRequests := [],
    clientSockets := [some 5], socketBusy := [false],
    keys := [some 9], myKeys := [some 9],
    blacklist := [], connectionAttempts := [] }

/-- A pool state with one live connected slot for peer "a". -/
def stC4 : P2PState :=
  { running := true, port := 1, host := "h", maxClients := 1,
    clientsIp := ["a"], incomingRequests := [],
    clientSockets := [some 2], socketBusy := [true],
    keys := [some 1], myKeys := [some 1],
    blacklist := [], connectionAttempts := [] }

/-- A pool state where the node's own public host address "h" occupies
a slot (reachable by connecting to one's own host on a different
port). -/
def stC5 : P2PState :=
  { running := true, port := 1, host := "h", maxClients := 1,
    clientsIp := ["h"], incomingRequests := [],
    clientSockets := [some 2], socketBusy := [true],
    keys := [some 1], myKeys := [some 1],
    blacklist := [], connectionAttempts := [] }

/-- A pool state with one live connected slot for a peer that is not
the node's own host address. -/
def stC5b : P2PState :=
  { running := true, port := 1, host := "h", maxClients := 1,
    clientsIp := ["a"], incomingRequests := [],
    clientSockets := [some 2], socketBusy := [true],
    keys := [some 1], myKeys := [some 1],
    blacklist := [], connectionAttempts := [] }

/-- A two-slot pool state whose slot 0 is occupied and whose slot 1 is
free. -/
def stC6 : P2PState :=
  { running := true, port := 1, host := "h", maxClients := 2,
    clientsIp := ["x", ""], incomingRequests := [],
    clientSockets := [some 4, none], socketBusy := [true, false],
    keys := [some 1, none], myKeys := [some 1, none],
    blacklist := [], connectionAttempts := [] }

/-- A pool state with a recent debounce entry for address "a" recorded
at time 10. -/
def stC7 : P2PState :=
  { running := true, port := 1, host := "h", maxClients := 1,
    clientsIp := [""], incomingRequests := [],
    clientSockets := [none], socketBusy := [false],
    keys := [none], myKeys := [none],
    blacklist := [], connectionAttempts := [("a", 10)] }

/-- A pool state with no inbound queues. -/
def stC8 : P2PState :=
  { running := true, port := 1, host := "h", maxClients := 1,
    clientsIp := ["a"], incomingRequests := [],
    clientSockets := [some 2], socketBusy := [true],
    keys := [some 1], myKeys := [some 1],
    blacklist := [], connectionAttempts := [] }

/-- A fresh pool state with public host address "h". -/
def stC9 : P2PState :=
  { running := true, port := 1, host := "h", maxClients := 1,
    clientsIp := [""], incomingRequests := [],
    clientSockets := [none], socketBusy := [false],
    keys := [none], myKeys := [none],
    blacklist := [], connectionAttempts := [] }

/-! Helper lemmas about the association-list and list-indexing
operations used by the embedding. -/

theorem getD_set_default {α : Type} : ∀ (l : List α) (i : Nat) (d : α),
    (l.set i d).getD i d = d
  | [], _, _ => rfl
  | _ :: _, 0, _ => rfl
  | _ :: xs, i + 1, d => getD_set_default xs i d

theorem getD_set_ne {α : Type} : ∀ (l : List α) (i j : Nat) (a d : α), i ≠ j →
    (l.set i a).getD j d = l.getD j d
  | [], _, _, _, _, _ => rfl
  | _ :: _, 0, 0, _, _, h => absurd rfl h
  | _ :: _, 0, _ + 1, _, _, _ => rfl
  | _ :: _, _ + 1, 0, _, _, _ => rfl
  | _ :: xs, i + 1, j + 1, a, d, h =>
      getD_set_ne xs i j a d (fun hij => h (congrArg Nat.succ hij))

theorem alookup_ainsert_self {α : Type} (t : List (String × α)) (k : String) (v : α) :
    alookup (ainsert t k v) k = some v := by
  simp [ainsert, alookup]

theorem alookup_aremove_self {α : Type} (t : List (String × α)) (k : String) :
    alookup (aremove t k) k = none := by
  induction t with
  | nil => rfl
  | cons p rest ih =>
    by_cases h : p.1 = k
    · simpa [aremove, h] using ih
    · simpa [aremove, alookup, h] using ih

theorem alookup_ainsert_ne {α : Type} (t : List (String × α)) (k k' : String) (v : α)
    (h : k ≠ k') : alookup (ainsert t k v) k' = alookup t k' := by
  have hrem : ∀ (u : List (String × α)), alookup (aremove u k) k' = alookup u k' := by
    intro u
    induction u with
    | nil => rfl
    | cons p rest ih =>
      by_cases hp : p.1 = k
      · have hp' : ¬ p.1 = k' := by
          intro hk'; exact h (hp ▸ hk' ▸ rfl)
        simp [aremove, alookup, hp, hp', ih, h]
      · simp [aremove, alookup, hp, ih]
  simp [ainsert, alookup, h, hrem]

theorem find?_range_first {p : Nat → Bool} : ∀ {n i : Nat},
    (List.range n).find? p = some i →
    i < n ∧ p i = true ∧ ∀ j, j < i → p j = false := by
  intro n
  induction n with
  | zero => intro i h; simp at h
  | succ m ih =>
    intro i h
    rw [List.range_succ, List.find?_append] at h
    cases hm : (List.range m).find? p with
    | some a =>
      rw [hm] at h
      simp at h
      obtain ⟨hlt, hp, hmin⟩ := ih (h ▸ hm)
      exact ⟨Nat.lt_succ_of_lt hlt, hp, hmin⟩
    | none =>
      rw [hm] at h
      simp only [Option.none_or] at h
      have hall : ∀ j, j < m → p j = false := by
        intro j hj
        have := List.find?_eq_none.mp hm j (List.mem_range.mpr hj)
        simpa using this
      by_cases hpm : p m
      · rw [List.find?_cons_of_pos _ hpm] at h
        obtain rfl : m = i := Option.some.inj h
        exact ⟨Nat.lt_succ_self m, hpm, hall⟩
      · rw [List.find?_cons_of_neg _ hpm] at h
        simp at h

/-! Claim theorems. -/

/-- C1 (counterexample): the outbound read worker's exit path does not
perform the full slot release of §4.7 — at a concrete populated state,
after `listen_to_server` exits, the socket handle, both keys and the
inbound queue for the address are all still present. -/
theorem C1_counterexample :
    ¬ fullSlotRelease (listen_to_server_exit stC1 0 "a") "a" 0 := by
  decide

/-- C1 (amended): when its read loop exits, the inbound worker performs
the full slot release of §4.7 via `close_connection_internal` (socket
handle cleared, address cleared, busy flag cleared, both keys cleared,
inbound queue removed), while the outbound worker `listen_to_server`
clears only the busy flag and the address string, leaving the socket
handle, both keys and the inbound queue untouched. -/
theorem C1_slot_release (st : P2PState) (address : String) (idx : Nat) :
    fullSlotRelease (close_connection_internal st address idx) address idx ∧
    (listen_to_server_exit st idx address).socketBusy = st.socketBusy.set idx false ∧
    (listen_to_server_exit st idx address).clientsIp = st.clientsIp.set idx "" ∧
    (listen_to_server_exit st idx address).clientSockets = st.clientSockets ∧
    (listen_to_server_exit st idx address).keys = st.keys ∧
    (listen_to_server_exit st idx address).myKeys = st.myKeys ∧
    (listen_to_server_exit st idx address).incomingRequests = st.incomingRequests := by
  refine ⟨?_, rfl, rfl, rfl, rfl, rfl, rfl⟩
  exact ⟨getD_set_default _ _ _, getD_set_default _ _ _, getD_set_default _ _ _,
    getD_set_default _ _ _, getD_set_default _ _ _, alookup_aremove_self _ _⟩

/-- C2 (counterexample): an inbound handshake that fails (here: empty
key) leaves its recorded debounce entry in the connection-attempt table
even though the attempt's outcome is known. -/
theorem C2_counterexample :
    (handle_incoming stC2 "b" 7 .emptyKey).1 = .failed ∧
    alookup (handle_incoming stC2 "b" 7 .emptyKey).2.connectionAttempts "b" = some 7 := by
  decide

/-- C2 (amended): `create_session` removes its debounce entry on every
exit path (the final table either has no entry for the address or the
call returned before recording one), but the inbound handshake worker
removes the entry only on success — whenever it claims a slot, the
entry is gone; on its failure paths the entry remains until the
5-second window elapses. -/
theorem C2_debounce_release (st : P2PState) (addr : String) (now : Nat)
    (port : Option Nat) (envO : OutEnv) (envI : InEnv) :
    (alookup (create_session st addr port now envO).2.connectionAttempts addr = none ∨
      (create_session st addr port now envO).2 = st) ∧
    (∀ i, (handle_incoming st addr now envI).1 = .connected i →
      alookup (handle_incoming st addr now envI).2.connectionAttempts addr = none) := by
  constructor
  · by_cases h1 : addr = st.host ∧ port.getD st.port = st.port
    · right; simp [create_session, h1]
    · by_cases h2 : check_address st addr
      · right; simp [create_session, h1, h2]
      · by_cases h3 : addr ∈ st.blacklist
        · right; simp [create_session, h1, h2, h3]
        · by_cases h4 : (debounceCheck st.connectionAttempts addr now).1
          · cases hslot : find_nonbusy_slot st.socketBusy st.maxClients with
            | some i =>
              left
              simp [create_session, h1, h2, h3, h4, hslot, alookup_aremove_self]
            | none =>
              left
              simp [create_session, h1, h2, h3, h4, hslot, alookup_aremove_self]
          · right; simp [create_session, h1, h2, h3, h4]
  · intro i h
    by_cases h4 : (debounceCheck st.connectionAttempts addr now).1
    · cases envI with
      | ok ck pk s =>
        cases hslot : findFreeSlot st.clientsIp st.socketBusy st.maxClients with
        | none => simp [handle_incoming, h4, hslot] at h
        | some j => simp [handle_incoming, h4, hslot, alookup_aremove_self]
      | keyReadErr => simp [handle_incoming, h4] at h
      | emptyKey => simp [handle_incoming, h4] at h
      | badKey => simp [handle_incoming, h4] at h
      | keyGenErr => simp [handle_incoming, h4] at h
      | serErr => simp [handle_incoming, h4] at h
      | sendErr => simp [handle_incoming, h4] at h
    · simp [handle_incoming, h4] at h

/-- C2 (witness): on a successful inbound handshake into a fresh state,
the debounce entry for the peer is absent afterwards. -/
theorem C2_witness :
    alookup (handle_incoming stC2 "b" 7 (.ok 1 2 3)).2.connectionAttempts "b" = none := by
  have h := (C2_debounce_release stC2 "b" 7 none .connectErr (.ok 1 2 3)).2
  exact h 0 (by decide)

/-- C3 (counterexample): a failed outbound attempt does not always leave
the slot arrays unchanged — at a concrete state whose candidate slot
holds a stale socket handle, a TCP connect error clears that handle via
`reload_socket`. -/
theorem C3_counterexample :
    (create_session stC3 "b" (some 2) 0 .connectErr).1 = false ∧
    stC3.clientSockets.getD 0 none = some 5 ∧
    (create_session stC3 "b" (some 2) 0 .connectErr).2.clientSockets.getD 0 none = none := by
  decide

/-- C3 (amended): every failed outbound attempt returns false and leaves
the address, peer-key and private-key arrays unchanged; on the handshake
failure paths (key generation/serialization error, send error, read
error, empty or unparsable key) the socket-handle and busy arrays are
also untouched, but on a TCP connect error the candidate slot's socket
handle is cleared and its busy flag set to false via `reload_socket`.
Slot fields are written only after a successful key exchange. -/
theorem C3_failed_connect_frame (st : P2PState) (address : String) (port idx : Nat)
    (env : OutEnv) (hfail : env.isFailure = true) :
    (connect_to_server st address port idx env).1 = false ∧
    (connect_to_server st address port idx env).2.clientsIp = st.clientsIp ∧
    (connect_to_server st address port idx env).2.keys = st.keys ∧
    (connect_to_server st address port idx env).2.myKeys = st.myKeys ∧
    (connect_to_server st address port idx env).2.incomingRequests = st.incomingRequests ∧
    (connect_to_server st address port idx env).2.connectionAttempts = st.connectionAttempts ∧
    (env = .connectErr →
      (connect_to_server st address port idx env).2 = reload_socket st idx) ∧
    (env ≠ .connectErr → (connect_to_server st address port idx env).2 = st) := by
  cases env <;> simp_all [connect_to_server, OutEnv.isFailure, reload_socket]

/-- C3 (witness): a key-generation failure on a concrete state returns
false and leaves the state untouched. -/
theorem C3_witness :
    (connect_to_server stC3 "b" 2 0 .keyGenErr).1 = false ∧
    (connect_to_server stC3 "b" 2 0 .keyGenErr).2 = stC3 := by
  have h := C3_failed_connect_frame stC3 "b" 2 0 .keyGenErr rfl
  exact ⟨h.1, h.2.2.2.2.2.2.2 (by decide)⟩

/-- C4 (counterexample): a failed encrypted write returns false but
emits no log entry — `send` falls through to its final `false` without
logging. -/
theorem C4_counterexample :
    send stC4 "a" "hi" .writeErr = (false, []) := by
  decide

/-- C4 (amended): `send` returns true exactly when the slot scan finds
the address, that slot has both a public key and a socket handle, and
the encrypted write succeeds; every failure returns false, and every
failure except the write-error path emits a log entry — a write failure
returns false with no log entry. -/
theorem C4_send_characterization (st : P2PState) (address message : String)
    (env : SendEnv) :
    ((send st address message env).1 = true ↔ env = .writeOk ∧ sendReady st address) ∧
    ((send st address message env).2 = [] ↔ env = .writeErr ∧ sendReady st address) := by
  cases hidx : get_ind_by_address st address with
  | none =>
    have hnr : ¬ sendReady st address := by
      rintro ⟨j, hj, -, -⟩
      rw [hidx] at hj
      exact Option.noConfusion hj
    cases env <;> simp [send, hidx, hnr]
  | some idx =>
    cases hk : st.keys.getD idx none with
    | none =>
      have hnr : ¬ sendReady st address := by
        rintro ⟨j, hj, hkey, -⟩
        rw [hidx] at hj
        obtain rfl := Option.some.inj hj
        exact hkey hk
      have hk' : st.keys[idx]?.getD none = none := by simpa using hk
      cases env <;> simp [send, hidx, hk', hnr]
    | some k =>
      have hk' : st.keys[idx]?.getD none = some k := by simpa using hk
      cases hs : st.clientSockets.getD idx none with
      | none =>
        have hnr : ¬ sendReady st address := by
          rintro ⟨j, hj, -, hsock⟩
          rw [hidx] at hj
          obtain rfl := Option.some.inj hj
          exact hsock hs
        have hs' : st.clientSockets[idx]?.getD none = none := by simpa using hs
        cases env <;> simp [send, hidx, hk', hs', hnr]
      | some s =>
        have hr : sendReady st address :=
          ⟨idx, hidx, by rw [hk]; exact Option.noConfusion,
            by rw [hs]; exact Option.noConfusion⟩
        have hs' : st.clientSockets[idx]?.getD none = some s := by simpa using hs
        cases env <;> simp [send, hidx, hk', hs', hr]

/-- C5 (counterexample): an address already present in the
connected-address array is not always answered with true — when the
address equals the node's own host and the target port its own port,
the self-connect check fires first and `create_session` returns
false. -/
theorem C5_counterexample :
    check_address stC5 "h" = true ∧
    (create_session stC5 "h" none 0 (.ok 1 2 3)).1 = false := by
  decide

/-- C5 (amended): for every address already present in the
connected-address array whose (address, target port) pair is not the
node's own (host, port), `create_session` returns true immediately with
the state unchanged — no new connection, no handshake, no slot
consumed — and calling it twice returns true both times. -/
theorem C5_idempotent_connected (st : P2PState) (address : String) (port : Option Nat)
    (now now2 : Nat) (env env2 : OutEnv)
    (hconn : check_address st address = true)
    (hself : ¬(address = st.host ∧ port.getD st.port = st.port)) :
    create_session st address port now env = (true, st) ∧
    create_session (create_session st address port now env).2 address port now2 env2 =
      (true, st) := by
  have h1 : create_session st address port now env = (true, st) := by
    simp [create_session, hself, hconn]
  refine ⟨h1, ?_⟩
  rw [h1]
  simp [create_session, hself, hconn]

/-- C5 (witness): at a concrete state connected to "a", a repeated
`create_session` for "a" succeeds without changing the state. -/
theorem C5_witness :
    create_session stC5b "a" none 0 .connectErr = (true, stC5b) :=
  (C5_idempotent_connected stC5b "a" none 0 0 .connectErr .connectErr (by decide)
    (by decide)).1

/-- C6: an inbound handshake that completes the key exchange claims
exactly the smallest slot index whose address is empty and whose busy
flag is false, setting that slot's address to the peer address and its
busy flag to true; when no such index exists among the `max_clients`
slots, the worker aborts with the no-free-slots outcome, claiming no
slot and leaving every slot array unchanged. -/
theorem C6_slot_claim (st : P2PState) (addr : String) (now : Nat) (k p s : Nat)
    (hadm : (debounceCheck st.connectionAttempts addr now).1 = true) :
    (∀ i, findFreeSlot st.clientsIp st.socketBusy st.maxClients = some i →
       i < st.maxClients ∧
       (st.clientsIp.getD i "").isEmpty = true ∧
       st.socketBusy.getD i false = false ∧
       (∀ j, j < i →
         ¬((st.clientsIp.getD j "").isEmpty = true ∧ st.socketBusy.getD j false = false)) ∧
       (handle_incoming st addr now (.ok k p s)).1 = .connected i ∧
       (handle_incoming st addr now (.ok k p s)).2.clientsIp = st.clientsIp.set i addr ∧
       (handle_incoming st addr now (.ok k p s)).2.socketBusy = st.socketBusy.set i true) ∧
    (findFreeSlot st.clientsIp st.socketBusy st.maxClients = none →
       (handle_incoming st addr now (.ok k p s)).1 = .noFreeSlot ∧
       (handle_incoming st addr now (.ok k p s)).2.clientsIp = st.clientsIp ∧
       (handle_incoming st addr now (.ok k p s)).2.socketBusy = st.socketBusy ∧
       (handle_incoming st addr now (.ok k p s)).2.clientSockets = st.clientSockets ∧
       (handle_incoming st addr now (.ok k p s)).2.keys = st.keys ∧
       (handle_incoming st addr now (.ok k p s)).2.myKeys = st.myKeys) := by
  constructor
  · intro i hi
    have hi' : (List.range st.maxClients).find?
        (fun j => (st.clientsIp.getD j "").isEmpty && !(st.socketBusy.getD j false))
        = some i := hi
    obtain ⟨hlt, hp, hmin⟩ := find?_range_first hi'
    rw [Bool.and_eq_true] at hp
    obtain ⟨hp1, hp2⟩ := hp
    refine ⟨hlt, hp1, by simpa using hp2, ?_, ?_, ?_, ?_⟩
    · intro j hj hc
      have hfalse := hmin j hj
      have hc1 : (st.clientsIp[j]?.getD "").isEmpty = true := by simpa using hc.1
      have hc2 : st.socketBusy[j]?.getD false = false := by simpa using hc.2
      simp [hc1, hc2] at hfalse
    · simp [handle_incoming, hadm, hi]
    · simp [handle_incoming, hadm, hi]
    · simp [handle_incoming, hadm, hi]
  · intro hnone
    refine ⟨?_, ?_, ?_, ?_, ?_, ?_⟩ <;> simp [handle_incoming, hadm, hnone]

/-- C6 (witness): at a concrete two-slot state whose slot 0 is occupied
and slot 1 free, a successful inbound handshake claims exactly slot 1
and records the peer address there. -/
theorem C6_witness :
    (handle_incoming stC6 "b" 0 (.ok 1 2 3)).1 = .connected 1 ∧
    (handle_incoming stC6 "b" 0 (.ok 1 2 3)).2.clientsIp = ["x", "b"] := by
  have h := (C6_slot_claim stC6 "b" 0 1 2 3 (by decide)).1 1 (by decide)
  refine ⟨h.2.2.2.2.1, ?_⟩
  rw [h.2.2.2.2.2.1]
  decide

/-- C7: the debounce check rejects without modifying the
connection-attempt table when a prior entry for the address is strictly
younger than 5 seconds — in the inbound worker the call returns with
the whole state unchanged, and in `create_session` (once the self,
already-connected and blacklist gates have passed) the call returns
false with the whole state unchanged; otherwise the check records `now`
for the address and admits the attempt. -/
theorem C7_debounce (st : P2PState) (addr : String) (now : Nat) (envI : InEnv)
    (envO : OutEnv) (port : Option Nat) :
    (∀ last, alookup st.connectionAttempts addr = some last → now - last < debounceSecs →
       debounceCheck st.connectionAttempts addr now = (false, st.connectionAttempts) ∧
       handle_incoming st addr now envI = (.debounced, st) ∧
       (¬(addr = st.host ∧ port.getD st.port = st.port) → check_address st addr = false →
         st.blacklist.contains addr = false →
         create_session st addr port now envO = (false, st))) ∧
    ((∀ last, alookup st.connectionAttempts addr = some last → debounceSecs ≤ now - last) →
       debounceCheck st.connectionAttempts addr now =
         (true, ainsert st.connectionAttempts addr now)) := by
  constructor
  · intro last hlast hlt
    have hdc : debounceCheck st.connectionAttempts addr now = (false, st.connectionAttempts) := by
      simp [debounceCheck, hlast, hlt]
    refine ⟨hdc, ?_, ?_⟩
    · simp [handle_incoming, hdc]
    · intro hself hconn hbl
      have hbl' : ¬ addr ∈ st.blacklist := by
        simpa using hbl
      simp [create_session, hself, hconn, hbl', hdc]
  · intro hge
    cases hl : alookup st.connectionAttempts addr with
    | none => simp [debounceCheck, hl]
    | some last =>
      have hge' := hge last hl
      simp [debounceCheck, hl, Nat.not_lt.mpr hge']

/-- C7 (witness): with an entry for "a" recorded at time 10, an attempt
at time 12 is rejected and the state is unchanged. -/
theorem C7_witness :
    debounceCheck stC7.connectionAttempts "a" 12 = (false, stC7.connectionAttempts) ∧
    handle_incoming stC7 "a" 12 .emptyKey = (.debounced, stC7) := by
  have h := (C7_debounce stC7 "a" 12 .emptyKey .connectErr none).1 10 (by decide) (by decide)
  exact ⟨h.1, h.2.1⟩

/-- C8: the inbound request queue is FIFO — three messages enqueued in
order onto an absent or empty queue are returned by successive
`get_request` calls in the same order, a fourth call returns `none`,
and `get_request` on an absent or empty queue returns `none` rather
than failing. -/
theorem C8_fifo (st : P2PState) (addr : String) (m1 m2 m3 : List Nat)
    (h : alookup st.incomingRequests addr = none ∨
      alookup st.incomingRequests addr = some []) :
    (get_request (enqueue3 st addr m1 m2 m3) addr).1 = some m1 ∧
    (get_request (get_request (enqueue3 st addr m1 m2 m3) addr).2 addr).1 = some m2 ∧
    (get_request (get_request (get_request (enqueue3 st addr m1 m2 m3) addr).2 addr).2
      addr).1 = some m3 ∧
    (get_request (get_request (get_request (get_request (enqueue3 st addr m1 m2 m3)
      addr).2 addr).2 addr).2 addr).1 = none ∧
    (∀ st', alookup st'.incomingRequests addr = none → (get_request st' addr).1 = none) ∧
    (∀ st', alookup st'.incomingRequests addr = some [] →
      (get_request st' addr).1 = none) := by
  have hq : ∀ (reqs : List (String × List (List Nat))) (m : List Nat),
      alookup (enqueue_request reqs addr m) addr =
        some ((alookup reqs addr).getD [] ++ [m]) := by
    intro reqs m
    cases hr : alookup reqs addr <;> simp [enqueue_request, hr, alookup_ainsert_self]
  have h0 : (alookup st.incomingRequests addr).getD [] = [] := by
    rcases h with h | h <;> simp [h]
  have h3 : alookup (enqueue3 st addr m1 m2 m3).incomingRequests addr
      = some [m1, m2, m3] := by
    simp [enqueue3, hq, h0]
  refine ⟨?_, ?_, ?_, ?_, ?_, ?_⟩
  · simp [get_request, h3]
  · simp [get_request, h3, alookup_ainsert_self]
  · simp [get_request, h3, alookup_ainsert_self]
  · simp [get_request, h3, alookup_ainsert_self]
  · intro st' h'
    simp [get_request, h']
  · intro st' h'
    simp [get_request, h']

/-- C8 (witness): at a concrete state with no queues, three enqueued
messages come back first-in-first-out. -/
theorem C8_witness :
    (get_request (enqueue3 stC8 "a" [1] [2] [3]) "a").1 = some [1] ∧
    (get_request (get_request (enqueue3 stC8 "a" [1] [2] [3]) "a").2 "a").1 = some [2] := by
  have h := C8_fifo stC8 "a" [1] [2] [3] (Or.inl rfl)
  exact ⟨h.1, h.2.1⟩

/-- C9: `create_session` with no target port behaves identically to
`create_session` targeting the node's own listening port, and when the
address also equals the node's own host address the call is rejected as
a self-connect, returning false with the state unchanged. -/
theorem C9_default_port (st : P2PState) (addr : String) (now : Nat) (env : OutEnv) :
    create_session st addr none now env = create_session st addr (some st.port) now env ∧
    (addr = st.host → create_session st addr none now env = (false, st)) := by
  constructor
  · rfl
  · intro h
    simp [create_session, h]

/-- C9 (witness): at a concrete state with host "h", calling
`create_session "h"` with no port is rejected as a self-connect. -/
theorem C9_witness :
    create_session stC9 "h" none 0 .connectErr = (false, stC9) :=
  (C9_default_port stC9 "h" 0 .connectErr).2 rfl

theorem filter_eq_map_range {α : Type} : ∀ (l : List α) (p : α → Bool) (d : α),
    l.filter p =
      ((List.range l.length).filter (fun i => p (l.getD i d))).map (fun i => l.getD i d)
  | [], _, _ => rfl
  | a :: t, p, d => by
    have ih := filter_eq_map_range t p d
    rw [List.length_cons, List.range_succ_eq_map]
    by_cases hpa : p a <;>
      simp [List.filter_cons, hpa, List.map_map, Function.comp,
        List.getD_cons_succ, List.getD_cons_zero, ih] <;>
      (rw [List.filter_map, List.map_map];
        simp [Function.comp_def, List.getElem?_cons_succ])

/-- C10: `connected_clients_count` equals the length of the list
returned by `get_connected_clients`; both are determined by the slot
indices whose address string is non-empty, and `get_connected_clients`
lists exactly those addresses in slot-index order. -/
theorem C10_count_clients (st : P2PState) :
    connected_clients_count st = (get_connected_clients st).length ∧
    get_connected_clients st =
      ((List.range st.clientsIp.length).filter
        (fun i => !(st.clientsIp.getD i "").isEmpty)).map (fun i => st.clientsIp.getD i "") := by
  constructor
  · simp [connected_clients_count, get_connected_clients, List.countP_eq_length_filter]
  · exact filter_eq_map_range st.clientsIp _ ""
